import Mathlib

/-!
Shallow embedding of the VoiceHub song-listing core:
the resilient `db.execute` retry proxy (server/plugins/error-handler.ts)
and the open-API song list endpoint sharing the normal-API cache
(the second document in that file: `defineEventHandler` for the song list).

JavaScript / SQL primitives are modelled explicitly; timestamps are
modelled as integers (the code stores them as strings and compares them
via `new Date(x).getTime()`, which is order-isomorphic).
-/

namespace VoiceHub

/-! ## JavaScript primitives -/

/-- Truthiness of a JS string: empty string is falsy. -/
def jsTruthy (s : String) : Bool := s ≠ ""

/-- Whether `pat` occurs at the head of `l`. -/
def leadsWith : List Char → List Char → Bool
  | [], _ => true
  | _ :: _, [] => false
  | a :: as, b :: bs => a = b && leadsWith as bs

/-- Whether `pat` occurs somewhere inside `l`. -/
def containsSub (pat : List Char) : List Char → Bool
  | [] => leadsWith pat []
  | c :: cs => leadsWith pat (c :: cs) || containsSub pat cs

/-- JS `String.prototype.includes`. -/
def strContains (s pat : String) : Bool := containsSub pat.data s.data

/-- Decimal digit value of a character, if any. -/
def digitVal (c : Char) : Option Nat :=
  if 48 ≤ c.toNat ∧ c.toNat ≤ 57 then some (c.toNat - 48) else none

/-- Hexadecimal digit value of a character, if any. -/
def hexDigitVal (c : Char) : Option Nat :=
  if 48 ≤ c.toNat ∧ c.toNat ≤ 57 then some (c.toNat - 48)
  else if 97 ≤ c.toNat ∧ c.toNat ≤ 102 then some (c.toNat - 87)
  else if 65 ≤ c.toNat ∧ c.toNat ≤ 70 then some (c.toNat - 55)
  else none

/-- Accumulate the value of a maximal run of leading digits. -/
def digitsValue (dv : Char → Option Nat) (base : Nat) : List Char → Nat → Nat
  | [], acc => acc
  | c :: cs, acc =>
    match dv c with
    | some d => digitsValue dv base cs (acc * base + d)
    | none => acc

/-- Parse an unsigned numeral; `none` when no leading digit exists (JS `NaN`). -/
def parseUnsigned (dv : Char → Option Nat) (base : Nat) : List Char → Option Nat
  | [] => none
  | c :: cs =>
    match dv c with
    | some d => some (digitsValue dv base cs d)
    | none => none

/-- Magnitude part of JS `parseInt` (radix 10, or 16 after a `0x` marker). -/
def parseMagnitude : List Char → Option Nat
  | '0' :: 'x' :: rest => parseUnsigned hexDigitVal 16 rest
  | '0' :: 'X' :: rest => parseUnsigned hexDigitVal 16 rest
  | cs => parseUnsigned digitVal 10 cs

/-- Whether JS `parseInt` skips this character as leading whitespace. -/
def isJsSpace (c : Char) : Bool := c = ' ' || c = '\t' || c = '\n' || c = '\r'

/-- JS `parseInt(s)`: skip whitespace, optional sign, leading digits; `none` is `NaN`. -/
def parseIntJS (s : String) : Option Int :=
  match s.data.dropWhile isJsSpace with
  | '+' :: rest => (parseMagnitude rest).map Int.ofNat
  | '-' :: rest => (parseMagnitude rest).map (fun n => -(n : Int))
  | rest => (parseMagnitude rest).map Int.ofNat

/-- JS `Math.ceil(a / b)` on integers (the code never divides by zero here). -/
def jsCeilDiv (a b : Int) : Int := -(Int.fdiv (-a) b)

/-- JS `Array.prototype.slice(s, e)`: negative indices count from the end,
both ends are clamped to the array bounds. -/
def jsSlice (l : List α) (s e : Int) : List α :=
  let len : Int := l.length
  let s1 := if s < 0 then max (len + s) 0 else min s len
  let e1 := if e < 0 then max (len + e) 0 else min e len
  (l.drop s1.toNat).take (e1 - s1).toNat

/-- Modelled from the spec: external time-formatting helper
(`~/utils/timeUtils`, not part of this repository snapshot); the spec only
requires a formatted rendering of the raw timestamp, so decimal rendering
is used. No claim depends on the concrete format. -/
def formatDateTime (t : Int) : String := toString t

/-- Stable insertion of `a` after every element `b` with `lte b a`. -/
def insertAfter (lte : α → α → Bool) (a : α) : List α → List α
  | [] => [a]
  | b :: bs => if lte b a then b :: insertAfter lte a bs else a :: b :: bs

/-- Stable sort (JS `Array.prototype.sort` with a consistent comparator,
and the model of the store's `ORDER BY`): elements are inserted in input
order, each after all elements not strictly greater. -/
def stableSort (lte : α → α → Bool) (l : List α) : List α :=
  l.foldl (fun acc a => insertAfter lte a acc) []

/-- JSON hexadecimal digit rendering (lowercase, as in `JSON.stringify`). -/
def hexDigitChar (n : Nat) : Char :=
  if n < 10 then Char.ofNat (48 + n) else Char.ofNat (87 + n)

/-- Escaping of one character inside a `JSON.stringify` string literal. -/
def jsonEscapeChar (c : Char) : List Char :=
  if c = '"' then ['\\', '"']
  else if c = '\\' then ['\\', '\\']
  else if c = '\x08' then ['\\', 'b']
  else if c = '\x0c' then ['\\', 'f']
  else if c = '\n' then ['\\', 'n']
  else if c = '\r' then ['\\', 'r']
  else if c = '\t' then ['\\', 't']
  else if c.toNat < 32 then
    ['\\', 'u', '0', '0', hexDigitChar (c.toNat / 16), hexDigitChar (c.toNat % 16)]
  else [c]

/-- `JSON.stringify` of a string value. -/
def jsonStr (s : String) : String :=
  "\"" ++ String.mk (s.data.flatMap jsonEscapeChar) ++ "\""

/-! ## Data model (drizzle schema, `drizzle/migrations/schema.ts`) -/

/-- Row of the `Song` table. `requesterId` is NOT NULL; `playedAt`,
`semester`, `preferredPlayTimeId` and the media fields are nullable.
Timestamps are modelled as integers. -/
structure Song where
  id : Nat
  title : String
  artist : String
  requesterId : Nat
  played : Bool
  playedAt : Option Int
  semester : Option String
  createdAt : Int
  updatedAt : Int
  cover : Option String
  musicPlatform : Option String
  musicId : Option String
  playUrl : Option String
  preferredPlayTimeId : Option Nat
  deriving DecidableEq, Repr

/-- Row of the `User` table (the fields this endpoint reads). `name`,
`grade` and `class` are nullable; `cls` stands for the source column
`class`, a reserved word in Lean. -/
structure User where
  id : Nat
  name : Option String
  grade : Option String
  cls : Option String
  deriving DecidableEq, Repr

/-- Row of the `Vote` table (the fields this endpoint reads). -/
structure Vote where
  id : Nat
  songId : Nat
  userId : Nat
  deriving DecidableEq, Repr

/-- Row of the `Schedule` table (the fields this endpoint reads). -/
structure Schedule where
  songId : Nat
  isDraft : Bool
  deriving DecidableEq, Repr

/-- Row of the `PlayTime` table (the fields this endpoint reads). -/
structure PlayTime where
  id : Nat
  name : String
  startTime : Option String
  endTime : Option String
  enabled : Bool
  deriving DecidableEq, Repr

/-- The relational catalog: the five tables the endpoint touches. -/
structure DB where
  songs : List Song
  users : List User
  votes : List Vote
  schedules : List Schedule
  playTimes : List PlayTime
  deriving DecidableEq, Repr

/-! ## Query parsing (endpoint lines 128-136) -/

/-- Raw query string parameters as handed over by `getQuery`: each is
either absent (`none`) or a string. -/
structure QueryInput where
  search : Option String := none
  semester : Option String := none
  grade : Option String := none
  played : Option String := none
  scheduled : Option String := none
  page : Option String := none
  limit : Option String := none
  sortBy : Option String := none
  sortOrder : Option String := none
  deriving DecidableEq, Repr

/-- Parameters after the endpoint's permissive normalization. -/
structure Params where
  search : String
  semester : String
  grade : String
  played : Option String
  scheduled : Option String
  page : Int
  limit : Int
  sortBy : String
  sortOrder : String
  deriving DecidableEq, Repr

/-- JS `v || d` for an optional string: absent or empty falls back. -/
def jsStrOr (v : Option String) (d : String) : String :=
  match v with
  | some s => if s = "" then d else s
  | none => d

/-- `parseInt(query.page as string) || 1`: `NaN` and `0` fall back to 1;
any other parsed value, including a negative one, is kept. -/
def parsePage (v : Option String) : Int :=
  match v with
  | none => 1
  | some s =>
    match parseIntJS s with
    | none => 1
    | some n => if n = 0 then 1 else n

/-- `Math.min(parseInt(query.limit as string) || 20, 100)`. -/
def parseLimit (v : Option String) : Int :=
  let base : Int :=
    match v with
    | none => 20
    | some s =>
      match parseIntJS s with
      | none => 20
      | some n => if n = 0 then 20 else n
  min base 100

/-- Endpoint lines 128-136: defaulting and normalization of the query. -/
def parseQuery (q : QueryInput) : Params where
  search := jsStrOr q.search ""
  semester := jsStrOr q.semester ""
  grade := jsStrOr q.grade ""
  played := q.played
  scheduled := q.scheduled
  page := parsePage q.page
  limit := parseLimit q.limit
  sortBy := jsStrOr q.sortBy "createdAt"
  sortOrder := jsStrOr q.sortOrder "desc"

/-! ## Cache key derivation (endpoint lines 140-147) -/

/-- `JSON.stringify(queryParams)` for the literal
`{search, semester, sortBy, sortOrder}` built at line 140 (key order as
written in the source). -/
def queryParamsJson (p : Params) : String :=
  "\x7b\"search\":" ++ jsonStr p.search ++
  ",\"semester\":" ++ jsonStr p.semester ++
  ",\"sortBy\":" ++ jsonStr p.sortBy ++
  ",\"sortOrder\":" ++ jsonStr p.sortOrder ++ "\x7d"

/-- The shared cache key: fixed namespace plus a digest of the canonical
JSON of the four keyed fields. The MD5 digest itself is an external
library primitive (`crypto.createHash`), passed in as an uninterpreted
function `md5hex`. -/
def normalApiCacheKey (md5hex : String → String) (p : Params) : String :=
  "songs:list:" ++ md5hex (queryParamsJson p)

/-! ## Resilient execution wrapper (plugin lines 78-100) -/

/-- Outcome of one store execution attempt: a value or an error message. -/
inductive ExecResult (α : Type) where
  | ok (a : α)
  | err (msg : String)
  deriving DecidableEq, Repr

/-- The retry predicate of the `db.execute` proxy (plugin lines 84-85):
only the connection-reset and connection-terminated markers. -/
def transientQueryError (m : String) : Bool :=
  strContains m "ECONNRESET" || strContains m "Connection terminated"

/-- The `db.execute` proxy: runs the first attempt; on an error matching
`transientQueryError` it waits 1000 ms and runs the retry attempt once,
returning that attempt's outcome either way; any other error propagates
at once. The second component is the total delay waited in milliseconds. -/
def dbExecuteProxy (first retry : ExecResult α) : ExecResult α × Nat :=
  match first with
  | .ok a => (.ok a, 0)
  | .err m =>
    if transientQueryError m then (retry, 1000) else (.err m, 0)

/-- The transient-marker list of the process-level `unhandledRejection`
observer (plugin lines 16-20): all five connectivity markers. -/
def transientProcessError (m : String) : Bool :=
  strContains m "ECONNRESET" || strContains m "ENOTFOUND" ||
  strContains m "ETIMEDOUT" || strContains m "Connection terminated" ||
  strContains m "Connection lost"

/-! ## Aggregation pipeline (cache miss, endpoint lines 202-442) -/

/-- `LEFT JOIN users ON songs.requesterId = users.id`: every song row
paired with each matching user, or with `none` when no user matches. -/
def joinedRows (db : DB) : List (Song × Option User) :=
  db.songs.flatMap fun s =>
    let matched := db.users.filter fun u => u.id == s.requesterId
    if matched.isEmpty then [(s, none)] else matched.map fun u => (s, some u)

/-- Code-point comparison of strings, standing in for the store's text
collation in `ORDER BY` on title/artist (no claim depends on the exact
collation). -/
def lexLe : List Char → List Char → Bool
  | [], _ => true
  | _ :: _, [] => false
  | a :: as, b :: bs =>
    if a.toNat < b.toNat then true
    else if b.toNat < a.toNat then false
    else lexLe as bs

/-- Boolean string order used by the `ORDER BY` model. -/
def strLeB (a b : String) : Bool := lexLe a.data b.data

/-- SQL `ASC` order on a nullable timestamp (PostgreSQL: NULLS LAST). -/
def optAscLe : Option Int → Option Int → Bool
  | none, none => true
  | none, some _ => false
  | some _, none => true
  | some x, some y => x ≤ y

/-- The conjunctive `whereCondition` of endpoint lines 203-228, evaluated
on one joined row: search (substring on title OR artist), semester
(exact, NULL never matches), grade (exact on the joined user, an unjoined
or NULL grade never matches), played (exact boolean when the parameter is
the string true/false). `scheduled` takes no part here. -/
def rowMatches (p : Params) (s : Song) (u : Option User) : Bool :=
  (p.search == "" || strContains s.title p.search || strContains s.artist p.search) &&
  (p.semester == "" || s.semester == some p.semester) &&
  (p.grade == "" ||
    (match u with
     | some usr => usr.grade == some p.grade
     | none => false)) &&
  (match p.played with
   | some "true" => s.played
   | some "false" => !s.played
   | _ => true)

/-- Rows of the join satisfying `whereCondition`; their count is the
`totalResult` of endpoint lines 234-238. -/
def matchingRows (db : DB) (p : Params) : List (Song × Option User) :=
  (joinedRows db).filter fun r => rowMatches p r.1 r.2

/-- The `orderBy` chain of endpoint lines 265-271: createdAt / title /
artist / playedAt honour `sortOrder`; any other `sortBy` (including
`votes`) falls back to `createdAt desc`. -/
def orderLte (p : Params) (a b : Song × Option User) : Bool :=
  if p.sortBy = "createdAt" then
    (if p.sortOrder = "desc" then b.1.createdAt ≤ a.1.createdAt else a.1.createdAt ≤ b.1.createdAt)
  else if p.sortBy = "title" then
    (if p.sortOrder = "desc" then strLeB b.1.title a.1.title else strLeB a.1.title b.1.title)
  else if p.sortBy = "artist" then
    (if p.sortOrder = "desc" then strLeB b.1.artist a.1.artist else strLeB a.1.artist b.1.artist)
  else if p.sortBy = "playedAt" then
    (if p.sortOrder = "desc" then optAscLe b.1.playedAt a.1.playedAt else optAscLe a.1.playedAt b.1.playedAt)
  else
    b.1.createdAt ≤ a.1.createdAt

/-- Matching rows in store order. -/
def sortedRows (db : DB) (p : Params) : List (Song × Option User) :=
  stableSort (orderLte p) (matchingRows db p)

/-- `LIMIT limit OFFSET (page - 1) * limit` (endpoint lines 231, 272-273):
the page of song rows (`songsData`). A negative offset or limit is clamped
to zero here; the store itself would reject a negative offset, and every
claim is settled at a valid page. -/
def pageRows (db : DB) (p : Params) : List (Song × Option User) :=
  ((sortedRows db p).drop ((p.page - 1) * p.limit).toNat).take p.limit.toNat

/-- `songIds` of endpoint line 276. -/
def pageIds (db : DB) (p : Params) : List Nat :=
  (pageRows db p).map fun r => r.1.id

/-- The vote-count map of endpoint lines 277-285, looked up with
`|| 0`: the number of vote rows for `sid`, provided `sid` is among the
page ids the grouped query was restricted to, else 0. -/
def voteCountFor (db : DB) (ids : List Nat) (sid : Nat) : Nat :=
  (db.votes.filter fun v => ids.contains v.songId && v.songId == sid).length

/-- The `scheduledSongs` set of endpoint lines 289-298: song ids having a
non-draft schedule row, restricted to the page ids. -/
def scheduledSet (db : DB) (ids : List Nat) : List Nat :=
  (db.schedules.filter fun r => ids.contains r.songId && r.isDraft == false).map
    fun r => r.songId

/-- `playTimesMap.get` of endpoint lines 301-304 (`new Map` keeps the
last entry for a duplicated id). -/
def playTimeById (db : DB) (i : Nat) : Option PlayTime :=
  (db.playTimes.filter fun pt => pt.id == i).getLast?

/-- `nameToUsers.get n` of endpoint lines 306-323: the users carrying the
truthy name `n`, in table order (users with a NULL or empty name are never
inserted into the map). -/
def sameNameUsers (db : DB) (n : String) : List User :=
  db.users.filter fun u =>
    match u.name with
    | some s => jsTruthy s && s == n
    | none => false

/-- `song.requester?.name || '未知用户'` (endpoint line 328): the plain
name, or the fallback for a missing, unjoined or empty name. -/
def requesterBaseName (u : Option User) : String :=
  match u with
  | some usr =>
    match usr.name with
    | some n => if jsTruthy n then n else "未知用户"
    | none => "未知用户"
  | none => "未知用户"

/-- The requester display name of endpoint lines 327-351: the base name;
when more than one user shares that name and the requester has a truthy
grade, a grade suffix is appended — upgraded to a grade-plus-class suffix
when more than one same-name user shares this grade and the requester has
a truthy class. -/
def requesterDisplayName (db : DB) (u : Option User) : String :=
  let base : String := requesterBaseName u
  let same := sameNameUsers db base
  if same.length > 1 then
    match u with
    | some usr =>
      match usr.grade with
      | some g =>
        if jsTruthy g then
          let sameGrade := same.filter fun v => v.grade == some g
          if sameGrade.length > 1 &&
              (match usr.cls with
               | some c => jsTruthy c
               | none => false) then
            base ++ "（" ++ g ++ " " ++
              (match usr.cls with
               | some c => c
               | none => "") ++ "）"
          else
            base ++ "（" ++ g ++ "）"
        else base
      | none => base
    | none => base
  else base

/-- The `preferredPlayTime` sub-object of endpoint lines 380-386. -/
structure PlayTimeView where
  id : Nat
  name : String
  startTime : Option String
  endTime : Option String
  enabled : Bool
  deriving DecidableEq, Repr

/-- One element of `formattedSongs` (endpoint lines 354-390): the shape
this endpoint serves on a miss and writes into the shared cache. The
`requester` field is the resolved display-name string. -/
structure FormattedSong where
  id : Nat
  title : String
  artist : String
  requester : String
  requesterId : Option Nat
  voteCount : Nat
  played : Bool
  playedAt : Option Int
  playedAtFormatted : Option String
  semester : Option String
  createdAt : Int
  updatedAt : Int
  requestedAt : String
  scheduled : Bool
  cover : Option String
  musicPlatform : Option String
  musicId : Option String
  playUrl : Option String
  preferredPlayTimeId : Option Nat
  preferredPlayTime : Option PlayTimeView
  deriving DecidableEq, Repr

/-- JS `x || null` on a nullable string column: empty collapses to null. -/
def jsOrNullStr (v : Option String) : Option String :=
  match v with
  | some s => if s = "" then none else some s
  | none => none

/-- Endpoint lines 326-391: composition of one output record. -/
def formatSong (db : DB) (ids : List Nat) (r : Song × Option User) : FormattedSong :=
  let s := r.1
  let u := r.2
  { id := s.id
    title := s.title
    artist := s.artist
    requester := requesterDisplayName db u
    requesterId := u.map fun usr => usr.id
    voteCount := voteCountFor db ids s.id
    played := s.played
    playedAt := s.playedAt
    playedAtFormatted := s.playedAt.map formatDateTime
    semester := s.semester
    createdAt := s.createdAt
    updatedAt := s.updatedAt
    requestedAt := formatDateTime s.createdAt
    scheduled := (scheduledSet db ids).contains s.id
    cover := jsOrNullStr s.cover
    musicPlatform := jsOrNullStr s.musicPlatform
    musicId := jsOrNullStr s.musicId
    playUrl := jsOrNullStr s.playUrl
    preferredPlayTimeId := s.preferredPlayTimeId
    preferredPlayTime :=
      match s.preferredPlayTimeId with
      | some i =>
        if i ≠ 0 then
          match playTimeById db i with
          | some pt => some ⟨pt.id, pt.name, pt.startTime, pt.endTime, pt.enabled⟩
          | none => none
        else none
      | none => none }

/-- `formattedSongs` as first mapped (endpoint line 326), before the
scheduled filter and the vote re-sort. -/
def formattedPage (db : DB) (p : Params) : List FormattedSong :=
  (pageRows db p).map (formatSong db (pageIds db p))

/-- Endpoint lines 393-398: the in-memory post-pagination filter applied
when the `scheduled` parameter is the string true/false. -/
def afterScheduledFilter (db : DB) (p : Params) : List FormattedSong :=
  if p.scheduled = some "true" then (formattedPage db p).filter fun f => f.scheduled
  else if p.scheduled = some "false" then (formattedPage db p).filter fun f => !f.scheduled
  else formattedPage db p

/-- The comparator of endpoint lines 402-409: vote-count difference per
`sortOrder`, then ascending `createdAt` on a tie. -/
def voteCmp (p : Params) (a b : FormattedSong) : Int :=
  let diff : Int :=
    if p.sortOrder = "desc" then (b.voteCount : Int) - (a.voteCount : Int)
    else (a.voteCount : Int) - (b.voteCount : Int)
  if diff = 0 then a.createdAt - b.createdAt else diff

/-- Endpoint lines 401-410: the final song list, re-sorted in memory when
`sortBy` is `votes` (JS `Array.prototype.sort` is stable). -/
def finalSongs (db : DB) (p : Params) : List FormattedSong :=
  if p.sortBy = "votes" then
    stableSort (fun a b => voteCmp p a b ≤ 0) (afterScheduledFilter db p)
  else afterScheduledFilter db p

/-! ## Response and cache-entry shapes -/

/-- The requester object rebuilt by the cache-hit path (endpoint lines
180-184): each field read off the cached value. -/
structure RequesterView where
  name : Option String
  grade : Option String
  cls : Option String
  deriving DecidableEq, Repr

/-- One song of a cache-hit response (endpoint lines 166-185). -/
structure HitSong where
  id : Nat
  title : String
  artist : String
  semester : Option String
  cover : Option String
  musicPlatform : Option String
  musicId : Option String
  playUrl : Option String
  voteCount : Nat
  scheduled : Bool
  played : Bool
  playedAt : Option Int
  createdAt : Int
  requester : Option RequesterView
  deriving DecidableEq, Repr

/-- A served song is shaped by whichever path produced it: the miss path
serves `FormattedSong` records, the hit path serves `HitSong` records. -/
inductive SongView where
  | missS (f : FormattedSong)
  | hitS (h : HitSong)
  deriving DecidableEq, Repr

/-- The `filters` object attached only by the cache-hit path (endpoint
lines 192-195). -/
structure Filters where
  search : Option String
  semester : Option String
  deriving DecidableEq, Repr

/-- The `pagination` object of a served response. -/
structure Pagination where
  page : Int
  limit : Int
  total : Nat
  totalPages : Int
  deriving DecidableEq, Repr

/-- The `data` object of a served response; `filters` is present only on
the hit path. -/
structure ResponseData where
  songs : List SongView
  pagination : Pagination
  filters : Option Filters
  deriving DecidableEq, Repr

/-- A served response. -/
structure Response where
  success : Bool
  data : ResponseData
  deriving DecidableEq, Repr

/-- The `pagination` object stored inside a cache entry (endpoint lines
431-435): page, limit and totalPages but no total. -/
structure CachedPagination where
  page : Int
  limit : Int
  totalPages : Int
  deriving DecidableEq, Repr

/-- The `data` object of a cache entry (endpoint lines 428-436). -/
structure CachedData where
  songs : List FormattedSong
  total : Nat
  pagination : CachedPagination
  deriving DecidableEq, Repr

/-- The `normalApiResult` value written to the shared cache (endpoint
lines 426-437). -/
structure CachedEntry where
  success : Bool
  data : CachedData
  deriving DecidableEq, Repr

/-- `total` of endpoint line 238: the count over the full where-condition,
taken before pagination and before the scheduled filter. -/
def missTotal (db : DB) (p : Params) : Nat :=
  (matchingRows db p).length

/-- The `result` served on a cache miss (endpoint lines 412-423). -/
def missResponse (db : DB) (p : Params) : Response where
  success := true
  data :=
    { songs := (finalSongs db p).map SongView.missS
      pagination :=
        { page := p.page
          limit := p.limit
          total := missTotal db p
          totalPages := jsCeilDiv (missTotal db p) p.limit }
      filters := none }

/-- The `normalApiResult` written back under the shared key on a cache
miss (endpoint lines 426-441). -/
def missCacheEntry (db : DB) (p : Params) : CachedEntry where
  success := true
  data :=
    { songs := finalSongs db p
      total := missTotal db p
      pagination :=
        { page := p.page
          limit := p.limit
          totalPages := jsCeilDiv (missTotal db p) p.limit } }

/-- The cache-hit projection of one cached song (endpoint lines 166-185).
The cached `requester` is the display-name string produced by the miss
path; JS property access `.name`/`.grade`/`.class` on a string yields
`undefined` (`none`), and a string is truthy exactly when non-empty, so a
truthy cached requester maps to an object whose three fields are all
`undefined` and a falsy one maps to `null`. -/
def hitMapSong (f : FormattedSong) : HitSong where
  id := f.id
  title := f.title
  artist := f.artist
  semester := f.semester
  cover := f.cover
  musicPlatform := f.musicPlatform
  musicId := f.musicId
  playUrl := f.playUrl
  voteCount := f.voteCount
  scheduled := f.scheduled
  played := f.played
  playedAt := f.playedAt
  createdAt := f.createdAt
  requester := if jsTruthy f.requester then some ⟨none, none, none⟩ else none

/-- The cache-hit branch (endpoint lines 151-200): pagination slicing of
the cached song array, `totalPages` recomputed from the cached total, and
a `filters` object attached. -/
def hitResponse (e : CachedEntry) (p : Params) : Response :=
  let startIndex := (p.page - 1) * p.limit
  let endIndex := startIndex + p.limit
  let paginatedSongs := jsSlice e.data.songs startIndex endIndex
  { success := true
    data :=
      { songs := paginatedSongs.map fun f => SongView.hitS (hitMapSong f)
        pagination :=
          { page := p.page
            limit := p.limit
            total := e.data.total
            totalPages := jsCeilDiv (e.data.total) p.limit }
        filters :=
          some
            { search := if p.search = "" then none else some p.search
              semester := if p.semester = "" then none else some p.semester } } }

/-- The whole endpoint (lines 115-455) over an abstract cache state:
parse the query, derive the shared key, serve from the cache on a hit;
otherwise run the aggregation pipeline and report the entry written back
under that key (second component). The auth check and the secondary
open-API cache write are outside every claim and omitted. -/
def handler (md5hex : String → String) (cacheFn : String → Option CachedEntry)
    (db : DB) (q : QueryInput) : Response × Option (String × CachedEntry) :=
  let p := parseQuery q
  let key := normalApiCacheKey md5hex p
  match cacheFn key with
  | some e => (hitResponse e p, none)
  | none => (missResponse db p, some (key, missCacheEntry db p))

/-! ## Concrete catalogs and requests used by the checks -/

/-- A catalog with no rows. -/
def emptyDB : DB where
  songs := []
  users := []
  votes := []
  schedules := []
  playTimes := []

/-- Compact builder for a plain song row of the concrete catalogs. -/
def sampleSong (i : Nat) (t : Int) (rid : Nat) (sem : String) : Song where
  id := i
  title := "T"
  artist := "A"
  requesterId := rid
  played := false
  playedAt := none
  semester := some sem
  createdAt := t
  updatedAt := t
  cover := none
  musicPlatform := none
  musicId := none
  playUrl := none
  preferredPlayTimeId := none

/-- Compact builder for a formatted song of the concrete cache entries. -/
def sampleFormatted (i : Nat) (t : Int) (r : String) (sch : Bool) (v : Nat) : FormattedSong where
  id := i
  title := "T"
  artist := "A"
  requester := r
  requesterId := some 10
  voteCount := v
  played := false
  playedAt := none
  playedAtFormatted := none
  semester := some "2024S1"
  createdAt := t
  updatedAt := t
  requestedAt := toString t
  scheduled := sch
  cover := none
  musicPlatform := none
  musicId := none
  playUrl := none
  preferredPlayTimeId := none
  preferredPlayTime := none

/-- A cache entry holding three songs, total 3. -/
def c1entry : CachedEntry where
  success := true
  data :=
    { songs := [sampleFormatted 1 100 "甲" false 0, sampleFormatted 2 200 "乙" false 0,
                sampleFormatted 3 300 "丙" false 0]
      total := 3
      pagination := { page := 1, limit := 20, totalPages := 1 } }

/-- A request for the second page of two. -/
def c1q : QueryInput := { search := some "a", page := some "2", limit := some "2" }

/-- A cache holding `c1entry` under exactly the key `c1q` derives. -/
def c1cache (k : String) : Option CachedEntry :=
  if k = normalApiCacheKey (fun s => s) (parseQuery c1q) then some c1entry else none

/-- The request `c1q` with a grade filter added. -/
def c1qGrade : QueryInput := { c1q with grade := some "G3" }

/-- One song requested by a G3 user: a graded request filters it out. -/
def c3db : DB where
  songs := [sampleSong 1 100 10 "2024S1"]
  users := [⟨10, some "甲", some "G3", some "1"⟩]
  votes := []
  schedules := []
  playTimes := []

/-- Song 1 carries only a draft schedule row; song 2 carries a published
row and a draft row. -/
def c6db : DB where
  songs := [sampleSong 1 100 10 "2024S1", sampleSong 2 200 10 "2024S1"]
  users := [⟨10, some "王五", some "G1", some "2"⟩]
  votes := []
  schedules := [⟨1, true⟩, ⟨2, false⟩, ⟨2, true⟩]
  playTimes := []

/-- Two songs with three votes each in semester 2024S1: song 1 was
requested earlier than song 2. -/
def c7db : DB where
  songs := [sampleSong 1 100 10 "2024S1", sampleSong 2 200 10 "2024S1"]
  users := [⟨10, some "王五", some "G1", some "2"⟩]
  votes := [⟨1, 1, 30⟩, ⟨2, 1, 31⟩, ⟨3, 1, 32⟩, ⟨4, 2, 30⟩, ⟨5, 2, 31⟩, ⟨6, 2, 32⟩]
  schedules := []
  playTimes := []

/-- The vote-sorted scenario request of the spec. -/
def c7q : QueryInput :=
  { semester := some "2024S1", sortBy := some "votes", sortOrder := some "desc",
    page := some "1", limit := some "20" }

/-- Identity of a served song, whichever path shaped it. -/
def songViewId : SongView → Nat
  | .missS f => f.id
  | .hitS h => h.id

/-- Three users named 李雷: two in grade G1 (classes 1 and 2), one in
grade G2. -/
def c8db : DB where
  songs := []
  users := [⟨20, some "李雷", some "G1", some "1"⟩, ⟨21, some "李雷", some "G1", some "2"⟩,
            ⟨22, some "李雷", some "G2", some "1"⟩]
  votes := []
  schedules := []
  playTimes := []

/-- The G1-class-1 李雷. -/
def c8u1 : User := ⟨20, some "李雷", some "G1", some "1"⟩

/-- The G2 李雷. -/
def c8u3 : User := ⟨22, some "李雷", some "G2", some "1"⟩

/-- Song 1 is scheduled (published row), song 2 is not. -/
def c9db : DB where
  songs := [sampleSong 1 100 10 "2024S1", sampleSong 2 200 10 "2024S1"]
  users := [⟨10, some "赵六", some "G1", some "2"⟩]
  votes := []
  schedules := [⟨1, false⟩]
  playTimes := []

/-- The default-parameter request. -/
def c9pBase : Params := parseQuery {}

/-- The same request with `scheduled=true`. -/
def c9pTrue : Params := { c9pBase with scheduled := some "true" }

/-- The formatted song the default request over `c6db` serves for song 2. -/
def c6f : FormattedSong := sampleFormatted 2 200 "王五" true 0

/-- The formatted song the `scheduled=true` request over `c9db` serves. -/
def c9f : FormattedSong := sampleFormatted 1 100 "赵六" true 0

/-- The hit-path projection of the one cached `c3db` song: its requester
object carries three `undefined` fields. -/
def c10h : HitSong :=
  ⟨1, "T", "A", some "2024S1", none, none, none, none, 0, false, false, none, 100,
    some ⟨none, none, none⟩⟩

/-! ## Helper lemmas -/

theorem normalApiCacheKey_congr (md5hex : String → String) {q1 q2 : QueryInput}
    (h1 : q1.search = q2.search) (h2 : q1.semester = q2.semester)
    (h3 : q1.sortBy = q2.sortBy) (h4 : q1.sortOrder = q2.sortOrder) :
    normalApiCacheKey md5hex (parseQuery q1) = normalApiCacheKey md5hex (parseQuery q2) := by
  simp [normalApiCacheKey, queryParamsJson, parseQuery, h1, h2, h3, h4]

theorem mem_insertAfter (lte : α → α → Bool) (a x : α) :
    ∀ l : List α, x ∈ insertAfter lte a l ↔ x = a ∨ x ∈ l
  | [] => by simp [insertAfter]
  | b :: bs => by
    simp only [insertAfter]
    split
    · rw [List.mem_cons, mem_insertAfter lte a x bs, List.mem_cons]
      tauto
    · simp only [List.mem_cons]

theorem mem_stableSort_aux (lte : α → α → Bool) (x : α) :
    ∀ (l acc : List α),
      x ∈ l.foldl (fun acc a => insertAfter lte a acc) acc ↔ x ∈ acc ∨ x ∈ l
  | [], acc => by simp
  | a :: as, acc => by
    rw [List.foldl_cons, mem_stableSort_aux lte x as, mem_insertAfter, List.mem_cons]
    tauto

theorem mem_stableSort (lte : α → α → Bool) (x : α) (l : List α) :
    x ∈ stableSort lte l ↔ x ∈ l := by
  rw [stableSort, mem_stableSort_aux]
  simp

theorem pairwise_insertAfter (lte : α → α → Bool)
    (total : ∀ a b, lte a b = true ∨ lte b a = true)
    (trans : ∀ a b c, lte a b = true → lte b c = true → lte a c = true) (a : α) :
    ∀ l : List α, l.Pairwise (fun x y => lte x y = true) →
      (insertAfter lte a l).Pairwise (fun x y => lte x y = true)
  | [], _ => by simp [insertAfter]
  | b :: bs, h => by
    rw [List.pairwise_cons] at h
    obtain ⟨hb, hbs⟩ := h
    simp only [insertAfter]
    split
    next hba =>
      rw [List.pairwise_cons]
      refine ⟨fun x hx => ?_, pairwise_insertAfter lte total trans a bs hbs⟩
      rw [mem_insertAfter] at hx
      rcases hx with rfl | hx
      · exact hba
      · exact hb x hx
    next hba =>
      have hab : lte a b = true := by
        rcases total a b with h | h
        · exact h
        · exact absurd h hba
      rw [List.pairwise_cons]
      refine ⟨fun x hx => ?_, List.pairwise_cons.mpr ⟨hb, hbs⟩⟩
      rcases List.mem_cons.mp hx with rfl | hx
      · exact hab
      · exact trans a b x hab (hb x hx)

theorem pairwise_stableSort_aux (lte : α → α → Bool)
    (total : ∀ a b, lte a b = true ∨ lte b a = true)
    (trans : ∀ a b c, lte a b = true → lte b c = true → lte a c = true) :
    ∀ (l acc : List α), acc.Pairwise (fun x y => lte x y = true) →
      (l.foldl (fun acc a => insertAfter lte a acc) acc).Pairwise
        (fun x y => lte x y = true)
  | [], _, h => by simpa using h
  | a :: as, acc, h => by
    rw [List.foldl_cons]
    exact pairwise_stableSort_aux lte total trans as _
      (pairwise_insertAfter lte total trans a acc h)

theorem pairwise_stableSort (lte : α → α → Bool)
    (total : ∀ a b, lte a b = true ∨ lte b a = true)
    (trans : ∀ a b c, lte a b = true → lte b c = true → lte a c = true)
    (l : List α) :
    (stableSort lte l).Pairwise (fun x y => lte x y = true) :=
  pairwise_stableSort_aux lte total trans l [] (by simp)

theorem jsSlice_of_nonneg (l : List α) (s k : Int) (hs : 0 ≤ s) (hk : 0 ≤ k) :
    jsSlice l s (s + k) = (l.drop s.toNat).take k.toNat := by
  unfold jsSlice
  have hs1 : ¬ s < 0 := by omega
  have he1 : ¬ s + k < 0 := by omega
  simp only [hs1, he1, if_false]
  by_cases hsl : s ≤ (l.length : Int)
  · have hmin : min s (l.length : Int) = s := min_eq_left hsl
    rw [hmin]
    rw [List.take_eq_take]
    simp only [List.length_drop]
    omega
  · have hmin : min s (l.length : Int) = (l.length : Int) := by
      apply min_eq_right; omega
    rw [hmin]
    have h1 : l.drop ((l.length : Int)).toNat = [] := by
      apply List.drop_eq_nil_of_le; omega
    have h2 : l.drop s.toNat = [] := by
      apply List.drop_eq_nil_of_le; omega
    rw [h1, h2]
    simp

theorem mem_of_mem_jsSlice {l : List α} {s e : Int} {x : α}
    (h : x ∈ jsSlice l s e) : x ∈ l := by
  unfold jsSlice at h
  exact List.mem_of_mem_drop (List.mem_of_mem_take h)

theorem append_ne_empty_left {a : String} (b : String) (h : a ≠ "") :
    a ++ b ≠ "" := by
  intro hab
  apply h
  have hdata : (a ++ b).data = [] := by rw [hab]
  rw [String.data_append, List.append_eq_nil] at hdata
  cases a
  simp_all

theorem requesterBaseName_ne_empty (u : Option User) :
    requesterBaseName u ≠ "" := by
  rcases u with _ | usr
  · decide
  · rcases husr : usr.name with _ | n
    · simp [requesterBaseName, husr]
    · by_cases hn : n = ""
      · simp [requesterBaseName, husr, jsTruthy, hn]
      · simp [requesterBaseName, husr, jsTruthy, hn]

theorem requesterDisplayName_ne_empty (db : DB) (u : Option User) :
    requesterDisplayName db u ≠ "" := by
  have hb : requesterBaseName u ≠ "" := requesterBaseName_ne_empty u
  rcases u with _ | usr
  · simp only [requesterDisplayName]
    split
    · exact hb
    · exact hb
  · rcases hg : usr.grade with _ | g
    · simp only [requesterDisplayName, hg]
      split
      · exact hb
      · exact hb
    · simp only [requesterDisplayName, hg]
      split
      · split
        · split
          · exact append_ne_empty_left _ (append_ne_empty_left _
              (append_ne_empty_left _ (append_ne_empty_left _ (append_ne_empty_left _ hb))))
          · exact append_ne_empty_left _
              (append_ne_empty_left _ (append_ne_empty_left _ hb))
        · exact hb
      · exact hb

theorem mem_afterScheduledFilter {db : DB} {p : Params} {f : FormattedSong}
    (h : f ∈ afterScheduledFilter db p) : f ∈ formattedPage db p := by
  unfold afterScheduledFilter at h
  split at h
  · exact (List.mem_filter.mp h).1
  · split at h
    · exact (List.mem_filter.mp h).1
    · exact h

theorem mem_finalSongs {db : DB} {p : Params} {f : FormattedSong}
    (h : f ∈ finalSongs db p) :
    ∃ r ∈ pageRows db p, f = formatSong db (pageIds db p) r := by
  have h2 : f ∈ afterScheduledFilter db p := by
    unfold finalSongs at h
    split at h
    · exact (mem_stableSort _ _ _).mp h
    · exact h
  have h3 : f ∈ formattedPage db p := mem_afterScheduledFilter h2
  unfold formattedPage at h3
  rw [List.mem_map] at h3
  obtain ⟨r, hr, hf⟩ := h3
  exact ⟨r, hr, hf.symm⟩

theorem mem_missResponse_songs {db : DB} {p : Params} {f : FormattedSong}
    (h : SongView.missS f ∈ (missResponse db p).data.songs) :
    ∃ r ∈ pageRows db p, f = formatSong db (pageIds db p) r := by
  apply mem_finalSongs
  unfold missResponse at h
  simp only at h
  rw [List.mem_map] at h
  obtain ⟨g, hg, hfg⟩ := h
  cases hfg
  exact hg

/-! ## Claims -/

/-- Claim C2: two query-parameter sets that agree on search, semester,
sortBy and sortOrder — whatever their grade, played, scheduled, page and
limit — derive the same cache key, and that key is the fixed namespace
`songs:list:` followed by the digest of the canonical JSON serialization
of the subset of those four fields (the MD5 hex digest itself is the
uninterpreted external primitive `md5hex`). -/
theorem cacheKey_ignores_unkeyed_params (md5hex : String → String)
    (q1 q2 : QueryInput) (h1 : q1.search = q2.search)
    (h2 : q1.semester = q2.semester) (h3 : q1.sortBy = q2.sortBy)
    (h4 : q1.sortOrder = q2.sortOrder) :
    normalApiCacheKey md5hex (parseQuery q1) = normalApiCacheKey md5hex (parseQuery q2)
    ∧ normalApiCacheKey md5hex (parseQuery q1) =
        "songs:list:" ++ md5hex (queryParamsJson (parseQuery q1)) :=
  ⟨normalApiCacheKey_congr md5hex h1 h2 h3 h4, rfl⟩

/-- Witness for C2: a graded, paged request and an ungraded one with a
different limit and played flag share one key. -/
theorem cacheKey_ignores_unkeyed_params_witness :
    normalApiCacheKey (fun s => s)
        (parseQuery { search := some "love", grade := some "G3", page := some "2" })
      = normalApiCacheKey (fun s => s)
        (parseQuery { search := some "love", played := some "true", limit := some "50" }) :=
  (cacheKey_ignores_unkeyed_params (fun s => s) _ _ rfl rfl rfl rfl).1

/-- Claim C4 counterexample: an execution failing with the timeout marker
`ETIMEDOUT` — one of the five transient-connectivity markers of the
process-level observer — is propagated unchanged by the `db.execute`
proxy with no delay, even though a retry would have succeeded; the claim
that any of the five markers triggers a retry is false on the code. -/
theorem dbExecuteProxy_no_retry_on_timeout_marker :
    transientProcessError "ETIMEDOUT" = true
    ∧ dbExecuteProxy (ExecResult.err "ETIMEDOUT") (ExecResult.ok (0 : Nat)) =
        (ExecResult.err "ETIMEDOUT", 0) := by
  constructor
  · decide
  · decide

/-- Claim C4 as amended: the `db.execute` proxy retries exactly once
after a fixed 1000 ms delay only when the failing message contains the
connection-reset (`ECONNRESET`) or connection-terminated marker, and then
returns the retry's outcome unchanged — its success with no error, or its
failure as is; an error whose message matches neither of these two
markers (including the host-not-found, timeout and connection-lost
markers) is propagated immediately with no retry and no delay. -/
theorem dbExecuteProxy_retry_behavior {α : Type} (a : α) (m : String)
    (r : ExecResult α) :
    dbExecuteProxy (ExecResult.ok a) r = (ExecResult.ok a, 0)
    ∧ (transientQueryError m = true →
        dbExecuteProxy (ExecResult.err m) r = (r, 1000))
    ∧ (transientQueryError m = false →
        dbExecuteProxy (ExecResult.err m) r = (ExecResult.err m, 0)) := by
  refine ⟨rfl, fun h => ?_, fun h => ?_⟩ <;> simp [dbExecuteProxy, h]

/-- Witness for the amended C4: a reset failure followed by a successful
retry yields the success after a 1000 ms wait; a reset failure followed
by a terminated failure surfaces the second failure; a host-not-found
failure propagates at once. -/
theorem dbExecuteProxy_retry_behavior_witness :
    dbExecuteProxy (ExecResult.err "ECONNRESET") (ExecResult.ok (7 : Nat)) =
      (ExecResult.ok 7, 1000)
    ∧ dbExecuteProxy (ExecResult.err "ECONNRESET")
        (ExecResult.err "Connection terminated" : ExecResult Nat) =
      (ExecResult.err "Connection terminated", 1000)
    ∧ dbExecuteProxy (ExecResult.err "ENOTFOUND") (ExecResult.ok (7 : Nat)) =
      (ExecResult.err "ENOTFOUND", 0) :=
  ⟨(dbExecuteProxy_retry_behavior 7 "ECONNRESET" (ExecResult.ok 7)).2.1 (by decide),
   (dbExecuteProxy_retry_behavior 7 "ECONNRESET"
      (ExecResult.err "Connection terminated")).2.1 (by decide),
   (dbExecuteProxy_retry_behavior 7 "ENOTFOUND" (ExecResult.ok 7)).2.2 (by decide)⟩

/-- Claim C5 counterexample: a negative page parameter is not normalized
to 1 — `parseInt` yields a truthy negative number that `|| 1` keeps, so
`page=-1` stays `-1`, refuting the claimed fallback for negative pages. -/
theorem negative_page_not_normalized :
    parsePage (some "-1") = -1 ∧ ¬ parsePage (some "-1") = 1 := by
  decide

/-- Claim C5 as amended: paging parameters are normalized permissively
rather than rejected — any parsed limit above 100 is clamped to 100, a
missing or non-numeric limit defaults to 20, a missing or non-numeric
page defaults to 1, and `page=0` falls back to 1; a negative page,
however, is kept unchanged rather than falling back to 1. -/
theorem pageLimit_normalization :
    (∀ (s : String) (n : Int), parseIntJS s = some n → 100 < n →
      parseLimit (some s) = 100)
    ∧ (∀ s : String, parseIntJS s = none → parseLimit (some s) = 20)
    ∧ parseLimit none = 20
    ∧ (∀ s : String, parseIntJS s = none → parsePage (some s) = 1)
    ∧ parsePage none = 1
    ∧ parsePage (some "0") = 1
    ∧ (∀ (s : String) (n : Int), parseIntJS s = some n → n < 0 →
      parsePage (some s) = n) := by
  refine ⟨fun s n hs hn => ?_, fun s hs => ?_, rfl, fun s hs => ?_, rfl, by decide,
    fun s n hs hn => ?_⟩
  · simp only [parseLimit, hs]
    have : ¬ n = 0 := by omega
    simp only [this, if_false]
    omega
  · simp [parseLimit, hs]
  · simp [parsePage, hs]
  · simp only [parsePage, hs]
    have : ¬ n = 0 := by omega
    simp [this]

/-- Witness for the amended C5: `limit=500` clamps to 100, `limit=abc`
and a missing page fall back, `page=-7` is kept. -/
theorem pageLimit_normalization_witness :
    parseLimit (some "500") = 100
    ∧ parseLimit (some "abc") = 20
    ∧ parsePage (some "xyz") = 1
    ∧ parsePage (some "-7") = -7 :=
  ⟨pageLimit_normalization.1 "500" 500 (by decide) (by decide),
   pageLimit_normalization.2.1 "abc" (by decide),
   pageLimit_normalization.2.2.2.1 "xyz" (by decide),
   pageLimit_normalization.2.2.2.2.2.2 "-7" (-7) (by decide) (by decide)⟩

/-- Claim C6: for every song in a cache-miss response, the scheduled flag
is true iff at least one schedule row with that song's id and
`isDraft=false` exists — draft rows never count, and one published row
suffices regardless of additional draft rows. -/
theorem scheduled_iff_nondraft_row (db : DB) (p : Params) (f : FormattedSong)
    (h : SongView.missS f ∈ (missResponse db p).data.songs) :
    f.scheduled = true ↔ ∃ r ∈ db.schedules, r.songId = f.id ∧ r.isDraft = false := by
  obtain ⟨r, hr, rfl⟩ := mem_missResponse_songs h
  have hid : (formatSong db (pageIds db p) r).id = r.1.id := rfl
  have hsch : (formatSong db (pageIds db p) r).scheduled =
      (scheduledSet db (pageIds db p)).contains r.1.id := rfl
  rw [hsch, hid]
  have hmem : r.1.id ∈ pageIds db p := List.mem_map.mpr ⟨r, hr, rfl⟩
  unfold scheduledSet
  constructor
  · intro hc
    have hc2 : r.1.id ∈ (db.schedules.filter fun s =>
        (pageIds db p).contains s.songId && s.isDraft == false).map (fun s => s.songId) := by
      simpa [List.contains, List.elem_eq_mem] using hc
    rw [List.mem_map] at hc2
    obtain ⟨row, hrow, hrid⟩ := hc2
    rw [List.mem_filter] at hrow
    refine ⟨row, hrow.1, hrid, ?_⟩
    have := hrow.2
    simp only [Bool.and_eq_true, beq_iff_eq] at this
    exact this.2
  · intro hex
    obtain ⟨row, hrow, hrid, hdraft⟩ := hex
    have hfil : row ∈ db.schedules.filter fun s =>
        (pageIds db p).contains s.songId && s.isDraft == false := by
      rw [List.mem_filter]
      refine ⟨hrow, ?_⟩
      simp only [Bool.and_eq_true, beq_iff_eq]
      constructor
      · simp [List.contains, List.elem_eq_mem, hrid, hmem]
      · exact hdraft
    have : r.1.id ∈ (db.schedules.filter fun s =>
        (pageIds db p).contains s.songId && s.isDraft == false).map (fun s => s.songId) :=
      List.mem_map.mpr ⟨row, hfil, hrid⟩
    simpa [List.contains, List.elem_eq_mem] using this

/-- Witness for C6: song 2 of `c6db` (one published and one draft row) is
served with `scheduled=true`, matching the existence of its published
row. -/
theorem scheduled_iff_nondraft_row_witness :
    c6f.scheduled = true ↔ ∃ r ∈ c6db.schedules, r.songId = c6f.id ∧ r.isDraft = false :=
  scheduled_iff_nondraft_row c6db (parseQuery {}) c6f (by decide)

/-- Claim C9: the scheduled parameter filters the composed page in memory
after the store-level pagination, while the reported pagination reflects
the pre-scheduled-filter store count — the response total equals the
count over the grade/played/search/semester conditions, the whole
pagination object is unchanged by the scheduled parameter, every served
song satisfies the requested scheduled flag, and every served song comes
from the store-paginated page. -/
theorem scheduledFilter_after_pagination :
    (∀ (db : DB) (p : Params),
      (missResponse db p).data.pagination.total = (matchingRows db p).length)
    ∧ (∀ (db : DB) (p : Params) (v : Option String),
        (missResponse db { p with scheduled := v }).data.pagination =
          (missResponse db p).data.pagination)
    ∧ (∀ (db : DB) (p : Params) (f : FormattedSong), p.scheduled = some "true" →
        SongView.missS f ∈ (missResponse db p).data.songs → f.scheduled = true)
    ∧ (∀ (db : DB) (p : Params) (f : FormattedSong), p.scheduled = some "false" →
        SongView.missS f ∈ (missResponse db p).data.songs → f.scheduled = false)
    ∧ (∀ (db : DB) (p : Params) (f : FormattedSong),
        SongView.missS f ∈ (missResponse db p).data.songs →
        ∃ r ∈ pageRows db p, f = formatSong db (pageIds db p) r) := by
  have hmemfilter : ∀ (db : DB) (p : Params) (f : FormattedSong),
      SongView.missS f ∈ (missResponse db p).data.songs →
      f ∈ afterScheduledFilter db p := by
    intro db p f h
    unfold missResponse at h
    simp only at h
    rw [List.mem_map] at h
    obtain ⟨g, hg, hfg⟩ := h
    cases hfg
    unfold finalSongs at hg
    split at hg
    · exact (mem_stableSort _ _ _).mp hg
    · exact hg
  refine ⟨fun db p => rfl, fun db p v => rfl, ?_, ?_, fun db p f h => mem_missResponse_songs h⟩
  · intro db p f hs h
    have h2 := hmemfilter db p f h
    unfold afterScheduledFilter at h2
    rw [if_pos hs] at h2
    exact (List.mem_filter.mp h2).2
  · intro db p f hs h
    have h2 := hmemfilter db p f h
    unfold afterScheduledFilter at h2
    rw [if_neg (by simp [hs]), if_pos hs] at h2
    have := (List.mem_filter.mp h2).2
    simpa using this

/-- Witness for C9: over `c9db` the `scheduled=true` request serves only
the scheduled song while total still counts both catalog songs, and the
pagination object matches the unfiltered request's. -/
theorem scheduledFilter_after_pagination_witness :
    (missResponse c9db c9pTrue).data.pagination.total = (matchingRows c9db c9pTrue).length
    ∧ (missResponse c9db c9pTrue).data.pagination = (missResponse c9db c9pBase).data.pagination
    ∧ c9f.scheduled = true :=
  ⟨scheduledFilter_after_pagination.1 c9db c9pTrue,
   scheduledFilter_after_pagination.2.1 c9db c9pBase (some "true"),
   scheduledFilter_after_pagination.2.2.1 c9db c9pTrue c9f rfl (by decide)⟩

/-- Claim C10: the two paths serve differently shaped songs for the same
logical data — the miss path serves and caches each requester as the
resolved display-name string (always non-empty), while the hit path
rebuilds requester as an object read off the cached string's
name/grade/class properties, which are all `undefined`, and additionally
attaches a `filters` object that the miss path never has. -/
theorem hitMiss_shape_mismatch :
    (∀ (db : DB) (p pHit : Params) (sv : SongView),
      sv ∈ (hitResponse (missCacheEntry db p) pHit).data.songs →
      ∃ h : HitSong, sv = SongView.hitS h ∧ h.requester = some ⟨none, none, none⟩)
    ∧ (∀ (e : CachedEntry) (pHit : Params),
        (hitResponse e pHit).data.filters =
          some ⟨(if pHit.search = "" then none else some pHit.search),
                (if pHit.semester = "" then none else some pHit.semester)⟩)
    ∧ (∀ (db : DB) (p : Params), (missResponse db p).data.filters = none)
    ∧ (∀ (db : DB) (p : Params) (f : FormattedSong),
        SongView.missS f ∈ (missResponse db p).data.songs → f.requester ≠ "") := by
  have hne : ∀ (db : DB) (p : Params) (f : FormattedSong),
      f ∈ finalSongs db p → f.requester ≠ "" := by
    intro db p f h
    obtain ⟨r, _, rfl⟩ := mem_finalSongs h
    exact requesterDisplayName_ne_empty db r.2
  refine ⟨?_, fun e pHit => rfl, fun db p => rfl, ?_⟩
  · intro db p pHit sv hsv
    unfold hitResponse at hsv
    simp only at hsv
    rw [List.mem_map] at hsv
    obtain ⟨f, hf, rfl⟩ := hsv
    refine ⟨hitMapSong f, rfl, ?_⟩
    have hfe : f ∈ finalSongs db p := mem_of_mem_jsSlice hf
    have hr : f.requester ≠ "" := hne db p f hfe
    unfold hitMapSong
    simp only
    rw [if_pos]
    simpa [jsTruthy] using hr
  · intro db p f h
    unfold missResponse at h
    simp only at h
    rw [List.mem_map] at h
    obtain ⟨g, hg, hfg⟩ := h
    cases hfg
    exact hne db p f hg

/-- Witness for C10: the entry a default miss over `c3db` caches, when
served by the hit path, yields a requester object with three `undefined`
fields although the miss response carried the string 甲; the hit response
carries a `filters` object, the miss response none. -/
theorem hitMiss_shape_mismatch_witness :
    (∃ h : HitSong, SongView.hitS c10h = SongView.hitS h ∧
      h.requester = some ⟨none, none, none⟩)
    ∧ (hitResponse (missCacheEntry c3db (parseQuery {})) (parseQuery {})).data.filters =
        some ⟨none, none⟩
    ∧ (missResponse c3db (parseQuery {})).data.filters = none :=
  ⟨hitMiss_shape_mismatch.1 c3db (parseQuery {}) (parseQuery {})
      (SongView.hitS c10h) (by decide),
   hitMiss_shape_mismatch.2.1 (missCacheEntry c3db (parseQuery {})) (parseQuery {}),
   hitMiss_shape_mismatch.2.2.1 c3db (parseQuery {})⟩

/-- Claim C8: every requester display name served by the miss path is the
three-tier disambiguation over the full user table; for a requester with
name, grade and class present, no same-name collision leaves the name
unchanged, a name collision appends the grade, and a name-and-grade
collision appends grade plus class instead of grade alone. -/
theorem requester_disambiguation (db : DB) :
    (∀ (p : Params) (f : FormattedSong),
      SongView.missS f ∈ (missResponse db p).data.songs →
      ∃ r ∈ pageRows db p, f.requester = requesterDisplayName db r.2)
    ∧ ∀ (usr : User) (n g c : String), usr.name = some n → n ≠ "" →
        usr.grade = some g → g ≠ "" → usr.cls = some c → c ≠ "" →
        (((sameNameUsers db n).length ≤ 1 → requesterDisplayName db (some usr) = n)
        ∧ ((sameNameUsers db n).length > 1 →
            ((sameNameUsers db n).filter fun v => v.grade == some g).length ≤ 1 →
            requesterDisplayName db (some usr) = n ++ "（" ++ g ++ "）")
        ∧ ((sameNameUsers db n).length > 1 →
            ((sameNameUsers db n).filter fun v => v.grade == some g).length > 1 →
            requesterDisplayName db (some usr) = n ++ "（" ++ g ++ " " ++ c ++ "）")) := by
  constructor
  · intro p f h
    obtain ⟨r, hr, hf⟩ := mem_missResponse_songs h
    exact ⟨r, hr, by subst hf; rfl⟩
  · intro usr n g c hname hn hgrade hg hcls hc
    have hbase : requesterBaseName (some usr) = n := by
      simp [requesterBaseName, hname, jsTruthy, hn]
    have hgt : jsTruthy g = true := by simpa [jsTruthy] using hg
    have hct : jsTruthy c = true := by simpa [jsTruthy] using hc
    refine ⟨?_, ?_, ?_⟩
    · intro hle
      simp only [requesterDisplayName, hbase]
      rw [if_neg (by omega)]
    · intro h1 h2
      simp only [requesterDisplayName, hbase]
      rw [if_pos h1]
      simp only [hgrade, hgt, if_true]
      rw [if_neg]
      simp only [Bool.and_eq_true, decide_eq_true_eq, not_and]
      intro hlen
      omega
    · intro h1 h2
      simp only [requesterDisplayName, hbase]
      rw [if_pos h1]
      simp only [hgrade, hgt, if_true, hcls]
      rw [if_pos]
      simp only [Bool.and_eq_true, decide_eq_true_eq]
      exact ⟨h2, hct⟩

/-- Witness for C8: over `c8db` (three users named 李雷, two of them in
grade G1) the G1-class-1 requester gets the grade-plus-class suffix and
the G2 requester the grade-only suffix. -/
theorem requester_disambiguation_witness :
    requesterDisplayName c8db (some c8u1) = "李雷（G1 1）"
    ∧ requesterDisplayName c8db (some c8u3) = "李雷（G2）" :=
  ⟨((requester_disambiguation c8db).2 c8u1 "李雷" "G1" "1" rfl (by decide) rfl
      (by decide) rfl (by decide)).2.2 (by decide) (by decide),
   ((requester_disambiguation c8db).2 c8u3 "李雷" "G2" "1" rfl (by decide) rfl
      (by decide) rfl (by decide)).2.1 (by decide) (by decide)⟩

/-- Claim C7: when `sortBy=votes` on a cache miss the composed page is
re-sorted in memory by vote count per `sortOrder`, and two songs with
equal vote count are ordered by ascending `createdAt` regardless of
`sortOrder`; in particular the spec's scenario — two songs of semester
2024S1 with three votes each, song 1 requested before song 2, queried
with `sortBy=votes sortOrder=desc page=1 limit=20` on a miss — serves
song 1 before song 2. -/
theorem votesSort_tiebreak (db : DB) (p : Params) (hv : p.sortBy = "votes") :
    (p.sortOrder = "desc" → (finalSongs db p).Pairwise (fun a b =>
        b.voteCount < a.voteCount ∨ (a.voteCount = b.voteCount ∧ a.createdAt ≤ b.createdAt)))
    ∧ (p.sortOrder ≠ "desc" → (finalSongs db p).Pairwise (fun a b =>
        a.voteCount < b.voteCount ∨ (a.voteCount = b.voteCount ∧ a.createdAt ≤ b.createdAt)))
    ∧ (missResponse c7db (parseQuery c7q)).data.songs.map songViewId = [1, 2] := by
  have hfs : finalSongs db p =
      stableSort (fun a b => voteCmp p a b ≤ 0) (afterScheduledFilter db p) := by
    unfold finalSongs
    rw [if_pos hv]
  have htotal : ∀ a b : FormattedSong,
      (decide (voteCmp p a b ≤ 0)) = true ∨ (decide (voteCmp p b a ≤ 0)) = true := by
    intro a b
    simp only [decide_eq_true_eq, voteCmp]
    split_ifs <;> omega
  have htrans : ∀ a b c : FormattedSong,
      decide (voteCmp p a b ≤ 0) = true → decide (voteCmp p b c ≤ 0) = true →
      decide (voteCmp p a c ≤ 0) = true := by
    intro a b c
    simp only [decide_eq_true_eq, voteCmp]
    split_ifs <;> omega
  have hp := pairwise_stableSort (fun a b => decide (voteCmp p a b ≤ 0)) htotal htrans
    (afterScheduledFilter db p)
  refine ⟨?_, ?_, by decide⟩
  · intro hso
    rw [hfs]
    refine List.Pairwise.imp ?_ hp
    intro a b hab
    rw [decide_eq_true_eq] at hab
    simp only [voteCmp, hso, if_true] at hab
    by_cases hd : (b.voteCount : Int) - (a.voteCount : Int) = 0
    · rw [if_pos (by simpa using hd)] at hab
      right
      omega
    · rw [if_neg (by simpa using hd)] at hab
      left
      omega
  · intro hso
    rw [hfs]
    refine List.Pairwise.imp ?_ hp
    intro a b hab
    rw [decide_eq_true_eq] at hab
    simp only [voteCmp, hso, if_false] at hab
    by_cases hd : (a.voteCount : Int) - (b.voteCount : Int) = 0
    · rw [if_pos (by simpa using hd)] at hab
      right
      omega
    · rw [if_neg (by simpa using hd)] at hab
      left
      omega

/-- Witness for C7: the scenario page over `c7db` is vote-desc sorted
with the ascending-createdAt tie-break. -/
theorem votesSort_tiebreak_witness :
    (finalSongs c7db (parseQuery c7q)).Pairwise (fun a b =>
      b.voteCount < a.voteCount ∨ (a.voteCount = b.voteCount ∧ a.createdAt ≤ b.createdAt)) :=
  (votesSort_tiebreak c7db (parseQuery c7q) (by decide)).1 (by decide)

/-- Claim C1: when the derived key has a cache entry, the response song
list is the cached array sliced to elements `(page-1)*limit` through
`(page-1)*limit + limit - 1` (reshaped per song) with `totalPages`
recomputed as the ceiling of the cached total over the limit, and grade,
played and scheduled have no effect on a hit: any request agreeing on
search, semester, sortBy, sortOrder, page and limit — whatever its grade,
played and scheduled — serves exactly the same song set. -/
theorem cacheHit_pagination_only (md5hex : String → String)
    (cacheFn : String → Option CachedEntry) (db : DB) (q : QueryInput) (e : CachedEntry)
    (he : cacheFn (normalApiCacheKey md5hex (parseQuery q)) = some e)
    (hpage : 1 ≤ parsePage q.page) (hlimit : 0 ≤ parseLimit q.limit) :
    ((handler md5hex cacheFn db q).1.data.songs =
        ((e.data.songs.drop ((parsePage q.page - 1) * parseLimit q.limit).toNat).take
          (parseLimit q.limit).toNat).map (fun f => SongView.hitS (hitMapSong f))
      ∧ (handler md5hex cacheFn db q).1.data.pagination.totalPages =
          jsCeilDiv e.data.total (parseLimit q.limit))
    ∧ ∀ q' : QueryInput, q'.search = q.search → q'.semester = q.semester →
        q'.sortBy = q.sortBy → q'.sortOrder = q.sortOrder → q'.page = q.page →
        q'.limit = q.limit →
        (handler md5hex cacheFn db q').1.data.songs =
          (handler md5hex cacheFn db q).1.data.songs := by
  have hh : handler md5hex cacheFn db q = (hitResponse e (parseQuery q), none) := by
    unfold handler
    simp only [he]
  refine ⟨⟨?_, ?_⟩, ?_⟩
  · have h1 : (handler md5hex cacheFn db q).1.data.songs =
        (jsSlice e.data.songs ((parsePage q.page - 1) * parseLimit q.limit)
          ((parsePage q.page - 1) * parseLimit q.limit + parseLimit q.limit)).map
          (fun f => SongView.hitS (hitMapSong f)) := by
      rw [hh]
      rfl
    rw [h1, jsSlice_of_nonneg e.data.songs _ _ (mul_nonneg (by omega) hlimit) hlimit]
  · rw [hh]
    rfl
  · intro q' h1 h2 h3 h4 h5 h6
    have hkey := normalApiCacheKey_congr md5hex h1 h2 h3 h4
    have hh' : handler md5hex cacheFn db q' = (hitResponse e (parseQuery q'), none) := by
      unfold handler
      simp only [hkey, he]
    rw [hh, hh']
    have hp : (parseQuery q').page = (parseQuery q).page := by
      simp [parseQuery, h5]
    have hl : (parseQuery q').limit = (parseQuery q).limit := by
      simp [parseQuery, h6]
    simp [hitResponse, hp, hl]

/-- Witness for C1: over the cache holding `c1entry`, the page-2-of-2
request serves exactly the cached songs 3 and 4 positions, and adding
`grade=G3` serves the identical song set. -/
theorem cacheHit_pagination_only_witness :
    (handler (fun s => s) c1cache emptyDB c1q).1.data.songs =
      ((c1entry.data.songs.drop 2).take 2).map (fun f => SongView.hitS (hitMapSong f))
    ∧ (handler (fun s => s) c1cache emptyDB c1qGrade).1.data.songs =
      (handler (fun s => s) c1cache emptyDB c1q).1.data.songs :=
  ⟨(cacheHit_pagination_only (fun s => s) c1cache emptyDB c1q c1entry (by decide)
      (by decide) (by decide)).1.1,
   (cacheHit_pagination_only (fun s => s) c1cache emptyDB c1q c1entry (by decide)
      (by decide) (by decide)).2 c1qGrade rfl rfl rfl rfl rfl rfl⟩

/-- Claim C3 counterexample: the entry written on a miss is not
independent of the grade parameter — over `c3db` (one song, requester in
grade G3) the `grade=G1` request and the ungraded request derive the
same key but write different entries (no songs versus one song). -/
theorem missCache_grade_dependence_counterexample :
    normalApiCacheKey (fun s => s) (parseQuery { grade := some "G1" }) =
      normalApiCacheKey (fun s => s) (parseQuery ({} : QueryInput))
    ∧ (handler (fun s => s) (fun _ => none) c3db { grade := some "G1" }).2 ≠
      (handler (fun s => s) (fun _ => none) c3db ({} : QueryInput)).2 :=
  ⟨rfl, by decide⟩

/-- Claim C3 as amended: on every cache miss the entry written back under
the derived key is exactly the served result — the song rows as served
(filtered by the request's grade and played conditions and by the
in-memory scheduled filter) together with the pre-filter total — so the
stored entry varies with grade, played and scheduled although the key
does not. -/
theorem missCache_stores_served_page (md5hex : String → String)
    (cacheFn : String → Option CachedEntry) (db : DB) (q : QueryInput)
    (hmiss : cacheFn (normalApiCacheKey md5hex (parseQuery q)) = none) :
    ∃ entry : CachedEntry,
      (handler md5hex cacheFn db q).2 =
        some (normalApiCacheKey md5hex (parseQuery q), entry)
      ∧ entry.data.songs.map SongView.missS = (handler md5hex cacheFn db q).1.data.songs
      ∧ entry.data.total = (handler md5hex cacheFn db q).1.data.pagination.total := by
  have hh : handler md5hex cacheFn db q =
      (missResponse db (parseQuery q),
        some (normalApiCacheKey md5hex (parseQuery q), missCacheEntry db (parseQuery q))) := by
    unfold handler
    simp only [hmiss]
  exact ⟨missCacheEntry db (parseQuery q), by rw [hh], by rw [hh]; rfl, by rw [hh]; rfl⟩

/-- Witness for the amended C3: the ungraded default request over `c3db`
writes back exactly what it serves. -/
theorem missCache_stores_served_page_witness :
    ∃ entry : CachedEntry,
      (handler (fun s => s) (fun _ => none) c3db ({} : QueryInput)).2 =
        some (normalApiCacheKey (fun s => s) (parseQuery ({} : QueryInput)), entry)
      ∧ entry.data.songs.map SongView.missS =
          (handler (fun s => s) (fun _ => none) c3db ({} : QueryInput)).1.data.songs
      ∧ entry.data.total =
          (handler (fun s => s) (fun _ => none) c3db ({} : QueryInput)).1.data.pagination.total :=
  missCache_stores_served_page (fun s => s) (fun _ => none) c3db {} rfl

end VoiceHub
